import Mathlib

/-!
Shallow embedding of the record search / filter core of an Airtable MCP
adapter, together with the list/get/create/update/delete handler wrappers.
The definitions mirror the TypeScript source:
  - `src/modules/airtable/records.ts` (record CRUD handlers and the
    client-side `searchRecords` pipeline),
  - `src/server.ts` (the formula-building `searchRecordsTool`),
  - the HTTP route file (the `POST /airtable/list-records` handler).
-/

namespace AirtableMCP

/-! String primitives.

JavaScript `s.toLowerCase()` is embedded as a character-wise lowering,
and `s.includes(pat)` as substring containment over the character lists. -/

/-- Embedding of JavaScript `String.prototype.toLowerCase`. -/
def jsToLowerCase (s : String) : String := ⟨s.data.map Char.toLower⟩

/-- Containment of `pat` as a contiguous sublist of `s`, the embedding of
JavaScript `String.prototype.includes` at the character-list level. -/
def listContainsSub (pat : List Char) : List Char → Bool
  | [] => pat.isPrefixOf []
  | c :: s => pat.isPrefixOf (c :: s) || listContainsSub pat s

/-- Embedding of JavaScript `s.includes(pat)`. -/
def jsIncludes (s pat : String) : Bool := listContainsSub pat.data s.data

/-- Case-insensitive substring check, the exact combination the source
uses: `value.toLowerCase().includes(term.toLowerCase())`. -/
def containsCI (s t : String) : Bool := jsIncludes (jsToLowerCase s) (jsToLowerCase t)

/-! Data model. -/

/-- Heterogeneous field values as returned by the remote service: strings,
numbers, booleans, arrays of values, objects, and null. -/
inductive Value where
  | str (s : String)
  | num (n : Int)
  | bool (b : Bool)
  | arr (elems : List Value)
  | obj
  | null

/-- Field descriptor from the table schema: `{id, name, type}`. -/
structure Field where
  id : String
  name : String
  type : String

/-- Table schema entry from the metadata endpoint: `{id, name, fields}`. -/
structure TableSchema where
  id : String
  name : String
  fields : List Field

/-- Normalized record shape `{id, fields, createdTime?}`; `fields` is the
field-name-to-value mapping, embedded as an association list. -/
structure AirtableRecord where
  id : String
  fields : List (String × Value)
  createdTime : Option String

/-- Embedding of the JavaScript property lookup `record.fields[fieldName]`:
`none` models `undefined`. -/
def lookupField (fields : List (String × Value)) (name : String) : Option Value :=
  (fields.find? (fun p => p.1 == name)).map (fun p => p.2)

/-! Match Evaluator (records.ts, `searchRecords`, the filter predicate). -/

/-- Per-field match from the source: a string value matches by
case-insensitive substring; an array matches when some element that is
itself a string matches; every other value (including a missing one)
returns false. -/
def fieldValueMatches (value : Option Value) (searchTerm : String) : Bool :=
  match value with
  | some (Value.str s) => containsCI s searchTerm
  | some (Value.arr elems) =>
      elems.any fun item =>
        match item with
        | Value.str s => containsCI s searchTerm
        | _ => false
  | _ => false

/-- Per-record match: `searchFieldNames.some(fieldName => ...)` in the
source. -/
def recordMatches (record : AirtableRecord) (searchFieldNames : List String)
    (searchTerm : String) : Bool :=
  searchFieldNames.any fun fieldName =>
    fieldValueMatches (lookupField record.fields fieldName) searchTerm

/-! Field Resolver (records.ts, `searchRecords` lines determining
`searchFieldNames`). -/

/-- Fixed allow-list of text-like field types from the source. -/
def textFieldTypes : List String :=
  ["singleLineText", "multilineText", "richText", "email", "url", "phone",
   "multipleRecordLinks"]

/-- Field resolution: explicit non-empty id list selects fields by id;
otherwise the type allow-list applies; an empty result is the
no-searchable-fields failure. Mirrors `if (fieldIds && fieldIds.length > 0)`
followed by the `searchFieldNames.length === 0` check. -/
def resolveSearchFields (tableFields : List Field) (fieldIds : Option (List String)) :
    Except String (List String) :=
  let searchFieldNames :=
    match fieldIds with
    | some ids =>
        if ids.length > 0 then
          (tableFields.filter (fun f => ids.contains f.id)).map (fun f => f.name)
        else
          (tableFields.filter (fun f => textFieldTypes.contains f.type)).map (fun f => f.name)
    | none =>
        (tableFields.filter (fun f => textFieldTypes.contains f.type)).map (fun f => f.name)
  if searchFieldNames.length = 0 then
    Except.error "No searchable fields found"
  else
    Except.ok searchFieldNames

/-- Specification-side eligibility of a field for searching: selected by id
when an explicit non-empty id list is given, otherwise selected by the
text-like type allow-list. -/
def eligibleField (fieldIds : Option (List String)) (f : Field) : Prop :=
  match fieldIds with
  | some ids => if ids = [] then f.type ∈ textFieldTypes else f.id ∈ ids
  | none => f.type ∈ textFieldTypes

/-! Schema Lookup (records.ts, `searchRecords`: the metadata fetch, the
`schemaResponse.ok` check, and the table-by-id-or-name lookup). -/

/-- Outcome shapes of the schema-lookup phase. -/
inductive SchemaError where
  | remoteStatus (status : Nat)
  | tableNotFound

/-- Environment a search call runs in: the metadata endpoint's success flag
and status, the base's tables, and the record page the table holds. -/
structure SearchEnv where
  schemaOk : Bool
  schemaStatus : Nat
  tables : List TableSchema
  records : List AirtableRecord

/-- Embedding of `schemaData.tables.find(t => t.id === x || t.name === x)`. -/
def findTable (tables : List TableSchema) (tableIdOrName : String) : Option TableSchema :=
  tables.find? (fun t => t.id == tableIdOrName || t.name == tableIdOrName)

/-- Schema lookup: a non-success response status fails with a remote error;
a success response selects the table by id or name, failing with
table-not-found when none matches. -/
def schemaLookup (env : SearchEnv) (tableIdOrName : String) :
    Except SchemaError TableSchema :=
  if env.schemaOk then
    match findTable env.tables tableIdOrName with
    | some t => Except.ok t
    | none => Except.error SchemaError.tableNotFound
  else
    Except.error (SchemaError.remoteStatus env.schemaStatus)

/-! Client-side search pipeline (records.ts, `searchRecords` handler).
The trace records, in program order, which phases were performed. -/

/-- Observable phases of the client-side search pipeline. -/
inductive SearchEvent where
  | fetchSchema
  | fetchRecords
  | filterRecords
deriving DecidableEq

/-- Embedding of the `searchRecords` handler. Control flow follows the
source exactly: schema fetch and table lookup, then the record fetch, then
field resolution, then the filter; each failure is wrapped by the outer
catch into a `Failed to search records: ...` message. The record fetch
precedes field resolution, as in the source. -/
def searchRecordsRun (env : SearchEnv) (tableIdOrName searchTerm : String)
    (fieldIds : Option (List String)) (maxRecords : Nat) :
    Except String (List AirtableRecord) × List SearchEvent :=
  match schemaLookup env tableIdOrName with
  | Except.error (SchemaError.remoteStatus s) =>
      (Except.error ("Failed to search records: Error: Schema API responded with status "
         ++ toString s),
       [SearchEvent.fetchSchema])
  | Except.error SchemaError.tableNotFound =>
      (Except.error ("Failed to search records: Error: Table " ++ tableIdOrName
         ++ " not found"),
       [SearchEvent.fetchSchema])
  | Except.ok table =>
      let records := env.records.take maxRecords
      match resolveSearchFields table.fields fieldIds with
      | Except.error e =>
          (Except.error ("Failed to search records: Error: " ++ e),
           [SearchEvent.fetchSchema, SearchEvent.fetchRecords])
      | Except.ok names =>
          (Except.ok (records.filter (fun r => recordMatches r names searchTerm)),
           [SearchEvent.fetchSchema, SearchEvent.fetchRecords, SearchEvent.filterRecords])

/-! Record Accessor wrappers (records.ts handlers): each handler performs
one remote call inside a try/catch and re-throws any failure wrapped in an
operation-specific message; no retry loop exists in the source, so the
embedding records exactly one remote call per invocation. -/

/-- Result of one handler invocation: its outcome and how many remote calls
it made. -/
structure OpRun (β : Type) where
  result : Except String β
  remoteCalls : Nat

/-- Shape of a successful delete: `{id, deleted: true}`. -/
structure DeleteResult where
  id : String
  deleted : Bool

/-- Embedding of the `listRecords` handler's catch-wrap around its single
`select(...).all()` call; `remote` is the rendered outcome of that call. -/
def listRecordsOp (remote : Except String (List AirtableRecord)) :
    OpRun (List AirtableRecord) :=
  { result :=
      match remote with
      | Except.ok rs => Except.ok rs
      | Except.error m => Except.error ("Failed to list records: " ++ m)
    remoteCalls := 1 }

/-- Embedding of the `getRecord` handler's catch-wrap around its single
`find(recordId)` call. -/
def getRecordOp (remote : Except String AirtableRecord) : OpRun AirtableRecord :=
  { result :=
      match remote with
      | Except.ok r => Except.ok r
      | Except.error m => Except.error ("Failed to get record: " ++ m)
    remoteCalls := 1 }

/-- Embedding of the `createRecord` handler's catch-wrap around its single
`create(fields)` call. -/
def createRecordOp (remote : Except String AirtableRecord) : OpRun AirtableRecord :=
  { result :=
      match remote with
      | Except.ok r => Except.ok r
      | Except.error m => Except.error ("Failed to create record: " ++ m)
    remoteCalls := 1 }

/-- Embedding of the `updateRecord` handler's catch-wrap around its single
`update(recordId, fields)` call. -/
def updateRecordOp (remote : Except String AirtableRecord) : OpRun AirtableRecord :=
  { result :=
      match remote with
      | Except.ok r => Except.ok r
      | Except.error m => Except.error ("Failed to update record: " ++ m)
    remoteCalls := 1 }

/-- Embedding of the `deleteRecord` handler: its single `destroy(recordId)`
call yields `{id, deleted: true}` on success and a wrapped error otherwise. -/
def deleteRecordOp (remote : Except String String) : OpRun DeleteResult :=
  { result :=
      match remote with
      | Except.ok rid => Except.ok { id := rid, deleted := true }
      | Except.error m => Except.error ("Failed to delete record: " ++ m)
    remoteCalls := 1 }

/-! List defaults across the three front-end variants. -/

/-- Default applied by the records-module `listRecords` handler:
`maxRecords = 100` in the destructuring. -/
def listRecordsQueryMax (maxRecords : Option Nat) : Nat := maxRecords.getD 100

/-- Default applied by the HTTP route `POST /airtable/list-records`
handler: `maxRecords ?? 3`. -/
def routeListQueryMax (maxRecords : Option Nat) : Nat := maxRecords.getD 3

/-- The protocol-tool `listRecordsTool` passes `maxRecords` through to the
remote select without applying any local default. -/
def toolListQueryMax (maxRecords : Option Nat) : Option Nat := maxRecords

/-- Record page the records-module list handler obtains: the remote call
honors the `maxRecords` query parameter. -/
def listRecordsFetch (remoteRecords : List AirtableRecord) (maxRecords : Option Nat) :
    List AirtableRecord :=
  remoteRecords.take (listRecordsQueryMax maxRecords)

/-- Record page the HTTP route list handler obtains. -/
def routeListFetch (remoteRecords : List AirtableRecord) (maxRecords : Option Nat) :
    List AirtableRecord :=
  remoteRecords.take (routeListQueryMax maxRecords)

/-! Formula Builder (server.ts, `searchRecordsTool`). -/

/-- Character-level doubling of every double-quote character. -/
def escList (l : List Char) : List Char :=
  l.foldr (fun c acc => if c == '"' then c :: c :: acc else c :: acc) []

/-- Embedding of the source's global regex replacement of each
double-quote character by two double-quote characters. -/
def escapeQuotes (s : String) : String := ⟨escList s.data⟩

/-- One per-field sub-expression:
`FIND(LOWER("<escaped term>"), LOWER(<field reference>))`. -/
def formulaPart (searchTerm fieldName : String) : String :=
  "FIND(LOWER(\"" ++ escapeQuotes searchTerm ++ "\"), LOWER(\x7b" ++ fieldName ++ "\x7d))"

/-- The full filter expression: `OR(<parts joined by comma-space>)`. -/
def buildSearchFormula (fieldNames : List String) (searchTerm : String) : String :=
  "OR(" ++ String.intercalate ", " (fieldNames.map (formulaPart searchTerm)) ++ ")"

/-- Collapse of doubled double-quotes, the inverse reading of the escaping. -/
def collapseDQ : List Char → List Char
  | [] => []
  | [c] => [c]
  | c :: d :: rest =>
      if c == '"' && d == '"' then c :: collapseDQ rest
      else c :: collapseDQ (d :: rest)

/-! Server-side (formula) search variant (server.ts, `searchRecordsTool`
handler): the empty-field-names guard runs before the try block, so before
any formula construction and before any remote fetch. -/

/-- Observable phases of the formula-search tool. -/
inductive ToolEvent where
  | buildFormula (formula : String)
  | fetchRecords
deriving DecidableEq

/-- Error message of the empty-field-names guard, verbatim from the source. -/
def missingFieldNamesMsg : String :=
  "The 'fieldNames' array must be provided and contain at least one field name to search in."

/-- Embedding of the `searchRecordsTool` handler: guard on `fieldNames`,
then formula construction, then the remote fetch whose server-side
filtering is part of the environment (`remoteFiltered`). -/
def searchToolRun (remoteFiltered : List AirtableRecord) (fieldNames : Option (List String))
    (searchTerm : String) (maxRecords : Nat) :
    Except String (List AirtableRecord) × List ToolEvent :=
  match fieldNames with
  | none => (Except.error missingFieldNamesMsg, [])
  | some [] => (Except.error missingFieldNamesMsg, [])
  | some fns =>
      let formula := buildSearchFormula fns searchTerm
      (Except.ok (remoteFiltered.take maxRecords),
       [ToolEvent.buildFormula formula, ToolEvent.fetchRecords])

/-! Concrete instances used by witnesses and counterexamples. -/

/-- Record with a string field and a linked-record-style array field. -/
def recW : AirtableRecord :=
  { id := "rec1"
    fields := [("Name", Value.str "Widget A"),
               ("Tags", Value.arr [Value.str "red", Value.str "blue"])]
    createdTime := none }

/-- Record whose array field lacks the term `red`. -/
def recW2 : AirtableRecord :=
  { id := "rec2"
    fields := [("Name", Value.str "Gadget"),
               ("Tags", Value.arr [Value.str "blue"])]
    createdTime := none }

/-- Table schema whose only field is numeric, so type-based resolution
yields no searchable fields. -/
def envC3 : SearchEnv :=
  { schemaOk := true
    schemaStatus := 200
    tables := [{ id := "tblX", name := "T1",
                 fields := [{ id := "fldN", name := "Amount", type := "number" }] }]
    records := [{ id := "recA", fields := [("Amount", Value.num 5)], createdTime := none }] }

/-- The single table of `envC3`. -/
def tableC3 : TableSchema :=
  { id := "tblX", name := "T1",
    fields := [{ id := "fldN", name := "Amount", type := "number" }] }

/-- Search environment for the end-to-end client-side search example. -/
def envW : SearchEnv :=
  { schemaOk := true
    schemaStatus := 200
    tables := [{ id := "tblW", name := "T1",
                 fields := [{ id := "fldName", name := "Name", type := "singleLineText" },
                            { id := "fldTags", name := "Tags", type := "multipleRecordLinks" }] }]
    records := [recW, recW2] }

/-- Schema-lookup environment with a single empty table. -/
def envC7 : SearchEnv :=
  { schemaOk := true
    schemaStatus := 200
    tables := [{ id := "tbl1", name := "T1", fields := [] }]
    records := [] }

/-- Single text field used by the resolver witness. -/
def fldName : Field := { id := "fld1", name := "Name", type := "singleLineText" }

/-- Four-record page showing the route list default of 3 truncating. -/
def recs4 : List AirtableRecord :=
  [{ id := "r1", fields := [], createdTime := none },
   { id := "r2", fields := [], createdTime := none },
   { id := "r3", fields := [], createdTime := none },
   { id := "r4", fields := [], createdTime := none }]

/-! Helper lemmas. -/

theorem listContainsSub_nil (l : List Char) : listContainsSub [] l = true := by
  cases l <;> simp [listContainsSub]

theorem listContainsSub_suffix (a b : List Char) : listContainsSub b (a ++ b) = true := by
  induction a with
  | nil =>
      cases b with
      | nil => simp [listContainsSub]
      | cons c s => simp [listContainsSub]
  | cons c a ih =>
      have h : listContainsSub b (a.append b) = true := ih
      simp only [List.cons_append, listContainsSub, h, Bool.or_true]

theorem jsIncludes_append_right (p m : String) : jsIncludes (p ++ m) m = true := by
  obtain ⟨pd⟩ := p
  obtain ⟨md⟩ := m
  exact listContainsSub_suffix pd md

theorem containsCI_empty (s : String) : containsCI s "" = true := by
  unfold containsCI jsIncludes jsToLowerCase
  exact listContainsSub_nil _

theorem fieldValueMatches_iff (v : Option Value) (T : String) :
    fieldValueMatches v T = true ↔
      ((∃ s, v = some (Value.str s) ∧ containsCI s T = true) ∨
       (∃ elems, v = some (Value.arr elems) ∧
          ∃ s, Value.str s ∈ elems ∧ containsCI s T = true)) := by
  cases v with
  | none => simp [fieldValueMatches]
  | some w =>
      cases w with
      | str s => simp [fieldValueMatches]
      | arr elems =>
          simp only [fieldValueMatches, List.any_eq_true, Option.some.injEq, reduceCtorEq,
            false_and, exists_false, Value.arr.injEq, false_or]
          constructor
          · rintro ⟨item, hmem, hit⟩
            cases item with
            | str s => exact ⟨elems, rfl, s, hmem, hit⟩
            | num n => simp at hit
            | bool b => simp at hit
            | arr es => simp at hit
            | obj => simp at hit
            | null => simp at hit
          · rintro ⟨el, hel, s, hmem, hci⟩
            cases hel
            exact ⟨Value.str s, hmem, hci⟩
      | num n => simp [fieldValueMatches]
      | bool b => simp [fieldValueMatches]
      | obj => simp [fieldValueMatches]
      | null => simp [fieldValueMatches]

theorem recordMatches_iff (r : AirtableRecord) (F : List String) (T : String) :
    recordMatches r F T = true ↔
      ∃ fname ∈ F, ∃ v, lookupField r.fields fname = some v ∧
        ((∃ s, v = Value.str s ∧ containsCI s T = true) ∨
         (∃ elems, v = Value.arr elems ∧
            ∃ s, Value.str s ∈ elems ∧ containsCI s T = true)) := by
  unfold recordMatches
  rw [List.any_eq_true]
  constructor
  · rintro ⟨fname, hf, hm⟩
    rcases (fieldValueMatches_iff _ T).mp hm with ⟨s, hv, hci⟩ | ⟨elems, hv, s, hmem, hci⟩
    · exact ⟨fname, hf, Value.str s, hv, Or.inl ⟨s, rfl, hci⟩⟩
    · exact ⟨fname, hf, Value.arr elems, hv, Or.inr ⟨elems, rfl, s, hmem, hci⟩⟩
  · rintro ⟨fname, hf, v, hv, hcase⟩
    refine ⟨fname, hf, (fieldValueMatches_iff _ T).mpr ?_⟩
    rcases hcase with ⟨s, rfl, hci⟩ | ⟨elems, rfl, s, hmem, hci⟩
    · exact Or.inl ⟨s, hv, hci⟩
    · exact Or.inr ⟨elems, hv, s, hmem, hci⟩

theorem collapseDQ_cons_ne (c : Char) (xs : List Char) (h : (c == '"') = false) :
    collapseDQ (c :: xs) = c :: collapseDQ xs := by
  cases xs with
  | nil => rfl
  | cons d rest => simp [collapseDQ, h]

theorem escList_cons (c : Char) (l : List Char) :
    escList (c :: l) =
      if (c == '"') = true then c :: c :: escList l else c :: escList l := rfl

theorem collapseDQ_escList (l : List Char) : collapseDQ (escList l) = l := by
  induction l with
  | nil => rfl
  | cons c l ih =>
      by_cases h : (c == '"') = true
      · have hc : c = '"' := by simpa using h
        subst hc
        rw [escList_cons, if_pos h]
        have h2 : collapseDQ ('"' :: '"' :: escList l) = '"' :: collapseDQ (escList l) := by
          simp [collapseDQ]
        rw [h2, ih]
      · have hb : (c == '"') = false := by simpa using h
        rw [escList_cons, if_neg (by simp [hb])]
        rw [collapseDQ_cons_ne c _ hb, ih]

theorem okOrFail_characterization (tf : List Field) (p : Field → Bool) (P : Field → Prop)
    (hp : ∀ f, p f = true ↔ P f) (msg : String) :
    (∀ names,
        (if ((tf.filter p).map (fun f => f.name)).length = 0 then
            (Except.error msg : Except String (List String))
          else Except.ok ((tf.filter p).map (fun f => f.name))) = Except.ok names →
        names ≠ [] ∧ ∀ n, n ∈ names ↔ ∃ f ∈ tf, f.name = n ∧ P f) ∧
    ((if ((tf.filter p).map (fun f => f.name)).length = 0 then
          (Except.error msg : Except String (List String))
        else Except.ok ((tf.filter p).map (fun f => f.name))) = Except.error msg ↔
      ¬ ∃ f ∈ tf, P f) := by
  by_cases hL : ((tf.filter p).map (fun f => f.name)).length = 0
  · rw [if_pos hL]
    have hnil : tf.filter p = [] := by
      have := List.length_eq_zero.mp hL
      simpa using this
    have hnone : ¬ ∃ f ∈ tf, P f := by
      rintro ⟨f, hf, hPf⟩
      exact (List.filter_eq_nil_iff.mp hnil f hf) ((hp f).mpr hPf)
    refine ⟨fun names h => ?_, ?_⟩
    · cases h
    · simp [hnone]
  · rw [if_neg hL]
    have hmem : ∀ n, n ∈ (tf.filter p).map (fun f => f.name) ↔
        ∃ f ∈ tf, f.name = n ∧ P f := by
      intro n
      simp only [List.mem_map, List.mem_filter]
      constructor
      · rintro ⟨f, ⟨hf, hpf⟩, rfl⟩
        exact ⟨f, hf, rfl, (hp f).mp hpf⟩
      · rintro ⟨f, hf, rfl, hPf⟩
        exact ⟨f, ⟨hf, (hp f).mpr hPf⟩, rfl⟩
    constructor
    · intro names h
      cases h
      refine ⟨fun hn => hL (by simp [hn]), hmem⟩
    · constructor
      · intro h
        cases h
      · intro hno
        exfalso
        rcases List.exists_mem_of_length_pos (Nat.pos_of_ne_zero hL) with ⟨n, hn⟩
        rcases (hmem n).mp hn with ⟨f, hf, _, hPf⟩
        exact hno ⟨f, hf, hPf⟩

/-! Claim theorems. -/

/-- C1: the match evaluator returns true exactly when some resolved field
name maps in the record to a string containing the term case-insensitively,
or to an array having a string element containing the term
case-insensitively; any other value shape, and non-string array elements,
never contribute a match. -/
theorem matchEvaluator_characterization (r : AirtableRecord) (F : List String) (T : String) :
    recordMatches r F T = true ↔
      ∃ fname ∈ F, ∃ v, lookupField r.fields fname = some v ∧
        ((∃ s, v = Value.str s ∧ containsCI s T = true) ∨
         (∃ elems, v = Value.arr elems ∧
            ∃ s, Value.str s ∈ elems ∧ containsCI s T = true)) :=
  recordMatches_iff r F T

/-- C10: with the empty search term, the match evaluator accepts every
record in which some resolved field holds a string value or an array with
at least one string element, so a client-side search with an empty term
keeps every such fetched record. -/
theorem emptyTerm_matchesStringFields (r : AirtableRecord) (F : List String)
    (h : ∃ fname ∈ F, ∃ v, lookupField r.fields fname = some v ∧
        ((∃ s, v = Value.str s) ∨ (∃ elems s, v = Value.arr elems ∧ Value.str s ∈ elems))) :
    recordMatches r F "" = true ∧
      ∀ recs : List AirtableRecord, r ∈ recs →
        r ∈ recs.filter (fun x => recordMatches x F "") := by
  have hm : recordMatches r F "" = true := by
    rw [recordMatches_iff]
    obtain ⟨f, hf, v, hv, hcase⟩ := h
    refine ⟨f, hf, v, hv, ?_⟩
    rcases hcase with ⟨s, rfl⟩ | ⟨elems, s, rfl, hmem⟩
    · exact Or.inl ⟨s, rfl, containsCI_empty s⟩
    · exact Or.inr ⟨elems, rfl, s, hmem, containsCI_empty s⟩
  exact ⟨hm, fun recs hr => List.mem_filter.mpr ⟨hr, hm⟩⟩

/-- C2: with an explicit non-empty id list the resolver outputs exactly the
names of schema fields whose id appears in the list (unknown ids silently
dropped); with an absent or empty list it outputs exactly the names of
fields whose type is in the text-like allow-list; in either branch it fails
with the no-searchable-fields error exactly when the resulting set is
empty. -/
theorem fieldResolver_characterization (tf : List Field) (fids : Option (List String)) :
    (∀ names, resolveSearchFields tf fids = Except.ok names →
        names ≠ [] ∧ ∀ n, n ∈ names ↔ ∃ f ∈ tf, f.name = n ∧ eligibleField fids f) ∧
    (resolveSearchFields tf fids = Except.error "No searchable fields found" ↔
        ¬ ∃ f ∈ tf, eligibleField fids f) := by
  rcases fids with _ | ids
  · exact okOrFail_characterization tf (fun f => textFieldTypes.contains f.type)
      (fun f => eligibleField none f)
      (fun f => by simp [eligibleField]) _
  · rcases ids with _ | ⟨i, is⟩
    · exact okOrFail_characterization tf (fun f => textFieldTypes.contains f.type)
        (fun f => eligibleField (some []) f)
        (fun f => by simp [eligibleField]) _
    · have hred : resolveSearchFields tf (some (i :: is)) =
          (if ((tf.filter (fun f => (i :: is).contains f.id)).map (fun f => f.name)).length = 0
           then (Except.error "No searchable fields found" : Except String (List String))
           else Except.ok ((tf.filter (fun f => (i :: is).contains f.id)).map (fun f => f.name))) := by
        simp [resolveSearchFields]
      rw [hred]
      exact okOrFail_characterization tf (fun f => (i :: is).contains f.id)
        (fun f => eligibleField (some (i :: is)) f)
        (fun f => by simp [eligibleField]) _

/-- Witness for C2: one text-typed field resolves by type inference, and
the characterization instantiates at it. -/
theorem fieldResolver_witness :
    ("Name" ∈ ["Name"] ↔ ∃ f ∈ [fldName], f.name = "Name" ∧ eligibleField none f) :=
  (((fieldResolver_characterization [fldName] none).1 ["Name"] rfl).2) "Name"

/-- Witness for C10 at the `Widget A`-style record searched over `Tags`. -/
theorem emptyTerm_matchesStringFields_witness :
    recordMatches recW ["Tags"] "" = true ∧
      recW ∈ [recW, recW2].filter (fun x => recordMatches x ["Tags"] "") := by
  have h := emptyTerm_matchesStringFields recW ["Tags"]
    ⟨"Tags", by simp, Value.arr [Value.str "red", Value.str "blue"], rfl,
      Or.inr ⟨[Value.str "red", Value.str "blue"], "red", rfl, by simp⟩⟩
  exact ⟨h.1, h.2 [recW, recW2] (by simp)⟩

/-- Counterexample to C3: in a run whose field resolution yields zero
names (the only field is numeric and no explicit ids are given), the
pipeline still performs the record fetch before failing, so records are
fetched although the resolved search field set is empty. -/
theorem searchFetchBeforeResolve_cx :
    (searchRecordsRun envC3 "T1" "x" none 100).1 =
        Except.error "Failed to search records: Error: No searchable fields found" ∧
      SearchEvent.fetchRecords ∈ (searchRecordsRun envC3 "T1" "x" none 100).2 := by
  constructor
  · rfl
  · simp [searchRecordsRun, schemaLookup, findTable, envC3, resolveSearchFields, textFieldTypes]

/-- C3 as amended: when field resolution yields zero names the search fails
with the no-searchable-fields error before the filter step, but the record
fetch has already occurred, because the source fetches the record page
before resolving fields. -/
theorem searchResolveFailure_failsBeforeFilter (env : SearchEnv) (X T : String)
    (fids : Option (List String)) (mr : Nat) (table : TableSchema)
    (hschema : schemaLookup env X = Except.ok table)
    (hres : resolveSearchFields table.fields fids = Except.error "No searchable fields found") :
    searchRecordsRun env X T fids mr =
        (Except.error "Failed to search records: Error: No searchable fields found",
         [SearchEvent.fetchSchema, SearchEvent.fetchRecords]) ∧
      SearchEvent.filterRecords ∉ (searchRecordsRun env X T fids mr).2 ∧
      SearchEvent.fetchRecords ∈ (searchRecordsRun env X T fids mr).2 := by
  have hrun : searchRecordsRun env X T fids mr =
      (Except.error "Failed to search records: Error: No searchable fields found",
       [SearchEvent.fetchSchema, SearchEvent.fetchRecords]) := by
    unfold searchRecordsRun
    rw [hschema]
    simp [hres]
  refine ⟨hrun, ?_, ?_⟩
  · rw [hrun]
    simp
  · rw [hrun]
    simp

/-- Witness for the amended C3 at the concrete numeric-only table. -/
theorem searchResolveFailure_witness :
    searchRecordsRun envC3 "T1" "x" none 100 =
        (Except.error "Failed to search records: Error: No searchable fields found",
         [SearchEvent.fetchSchema, SearchEvent.fetchRecords]) ∧
      SearchEvent.filterRecords ∉ (searchRecordsRun envC3 "T1" "x" none 100).2 ∧
      SearchEvent.fetchRecords ∈ (searchRecordsRun envC3 "T1" "x" none 100).2 :=
  searchResolveFailure_failsBeforeFilter envC3 "T1" "x" none 100 tableC3 rfl rfl

/-- Counterexample to C4: the HTTP route list handler defaults
`maxRecords` to 3, not 100, when it is not supplied; on a four-record page
it therefore fetches only three records. -/
theorem routeListDefault_cx :
    routeListQueryMax none = 3 ∧ routeListQueryMax none ≠ 100 ∧
      (routeListFetch recs4 none).length = 3 ∧ recs4.length = 4 :=
  ⟨rfl, by decide, rfl, rfl⟩

/-- C4 as amended: the records-module list operation defaults
`max_records` to 100 when not supplied and fetches at most 100 records; the
HTTP route variant defaults it to 3 instead, and the protocol-tool variant
applies no local default. -/
theorem listDefaults_amended (recs : List AirtableRecord) :
    listRecordsQueryMax none = 100 ∧
      listRecordsFetch recs none = recs.take 100 ∧
      (listRecordsFetch recs none).length ≤ 100 ∧
      routeListQueryMax none = 3 ∧
      toolListQueryMax none = none :=
  ⟨rfl, rfl, List.length_take_le 100 recs, rfl, rfl⟩

/-- C5: the formula builder emits the OR of one case-insensitive FIND
sub-expression per field over the lowercased field reference and the
quote-escaped term; escaping doubles every double quote and is reversible;
the `He said "hi"` example produces the expected well-formed formula. -/
theorem formulaBuilder_characterization (fieldNames : List String) (t : String)
    (_h : fieldNames ≠ []) :
    buildSearchFormula fieldNames t =
        "OR(" ++ String.intercalate ", "
          (fieldNames.map (fun f =>
            "FIND(LOWER(\"" ++ escapeQuotes t ++ "\"), LOWER(\x7b" ++ f ++ "\x7d))")) ++ ")" ∧
      collapseDQ (escapeQuotes t).data = t.data ∧
      buildSearchFormula ["Name"] "He said \"hi\"" =
        "OR(FIND(LOWER(\"He said \"\"hi\"\"\"), LOWER(\x7bName\x7d)))" := by
  refine ⟨rfl, ?_, ?_⟩
  · exact collapseDQ_escList t.data
  · rfl

/-- Witness for C5 at the single-field example with an embedded quote. -/
theorem formulaBuilder_witness :
    buildSearchFormula ["Name"] "He said \"hi\"" =
      "OR(FIND(LOWER(\"He said \"\"hi\"\"\"), LOWER(\x7bName\x7d)))" :=
  (formulaBuilder_characterization ["Name"] "He said \"hi\"" (by decide)).2.2

/-- C6: the formula-search tool with an absent or empty field-name list
fails with the missing-field-names error and an empty trace, so no formula
is built, no fetch occurs, and no schema-based fallback happens. -/
theorem toolSearch_missingFieldNames (remoteFiltered : List AirtableRecord)
    (T : String) (mr : Nat) (fns : Option (List String))
    (h : fns = none ∨ fns = some []) :
    searchToolRun remoteFiltered fns T mr = (Except.error missingFieldNamesMsg, []) ∧
      (∀ formula, ToolEvent.buildFormula formula ∉ (searchToolRun remoteFiltered fns T mr).2) ∧
      ToolEvent.fetchRecords ∉ (searchToolRun remoteFiltered fns T mr).2 := by
  rcases h with rfl | rfl
  · exact ⟨rfl, fun formula hmem => by simp [searchToolRun] at hmem,
      fun hmem => by simp [searchToolRun] at hmem⟩
  · exact ⟨rfl, fun formula hmem => by simp [searchToolRun] at hmem,
      fun hmem => by simp [searchToolRun] at hmem⟩

/-- Witness for C6 with the field-name list absent. -/
theorem toolSearch_missingFieldNames_witness :
    searchToolRun [] none "x" 100 = (Except.error missingFieldNamesMsg, []) :=
  (toolSearch_missingFieldNames [] "x" 100 none (Or.inl rfl)).1

/-- C7: the schema lookup selects a table of the base whose id or name
equals the identifier; it fails with table-not-found exactly when the
metadata fetch succeeded and no table matches, and with a remote error
carrying the status exactly when the metadata endpoint returned a
non-success status. -/
theorem schemaLookup_characterization (env : SearchEnv) (X : String) :
    (∀ t, schemaLookup env X = Except.ok t →
        t ∈ env.tables ∧ (t.id = X ∨ t.name = X)) ∧
    (schemaLookup env X = Except.error SchemaError.tableNotFound ↔
        env.schemaOk = true ∧ ∀ t ∈ env.tables, t.id ≠ X ∧ t.name ≠ X) ∧
    (∀ s, schemaLookup env X = Except.error (SchemaError.remoteStatus s) ↔
        env.schemaOk = false ∧ s = env.schemaStatus) := by
  by_cases hok : env.schemaOk = true
  · rcases hfind : findTable env.tables X with _ | t
    · have hred : schemaLookup env X = Except.error SchemaError.tableNotFound := by
        unfold schemaLookup
        rw [if_pos hok, hfind]
      have hnone := List.find?_eq_none.mp hfind
      refine ⟨?_, ?_, ?_⟩
      · intro t ht
        rw [hred] at ht
        cases ht
      · rw [hred]
        constructor
        · intro _
          refine ⟨hok, fun t htm => ?_⟩
          have h1 := hnone t htm
          simp only [Bool.or_eq_true, beq_iff_eq, not_or] at h1
          exact h1
        · intro _
          rfl
      · intro s
        rw [hred]
        constructor
        · intro hcontr
          cases hcontr
        · rintro ⟨hfalse, -⟩
          rw [hok] at hfalse
          cases hfalse
    · have hred : schemaLookup env X = Except.ok t := by
        unfold schemaLookup
        rw [if_pos hok, hfind]
      have hmem : t ∈ env.tables := List.mem_of_find?_eq_some hfind
      have hprop : t.id = X ∨ t.name = X := by
        have h1 := List.find?_some hfind
        simpa only [Bool.or_eq_true, beq_iff_eq] using h1
      refine ⟨?_, ?_, ?_⟩
      · intro t' ht
        rw [hred] at ht
        cases ht
        exact ⟨hmem, hprop⟩
      · rw [hred]
        constructor
        · intro hcontr
          cases hcontr
        · rintro ⟨-, hall⟩
          exfalso
          rcases hprop with hid | hname
          · exact (hall t hmem).1 hid
          · exact (hall t hmem).2 hname
      · intro s
        rw [hred]
        constructor
        · intro hcontr
          cases hcontr
        · rintro ⟨hfalse, -⟩
          rw [hok] at hfalse
          cases hfalse
  · have hfalse : env.schemaOk = false := by
      cases henv : env.schemaOk
      · rfl
      · exact absurd henv hok
    have hred : schemaLookup env X = Except.error (SchemaError.remoteStatus env.schemaStatus) := by
      unfold schemaLookup
      rw [if_neg hok]
    refine ⟨?_, ?_, ?_⟩
    · intro t ht
      rw [hred] at ht
      cases ht
    · rw [hred]
      constructor
      · intro hcontr
        cases hcontr
      · rintro ⟨htrue, -⟩
        exact absurd htrue hok
    · intro s
      rw [hred]
      constructor
      · intro heq
        cases heq
        exact ⟨hfalse, rfl⟩
      · rintro ⟨-, rfl⟩
        rfl

/-- Witness for C7: a successful lookup by name yields a table of the base
matching the identifier. -/
theorem schemaLookup_witness :
    ({ id := "tbl1", name := "T1", fields := [] } : TableSchema) ∈ envC7.tables ∧
      (({ id := "tbl1", name := "T1", fields := [] } : TableSchema).id = "T1" ∨
        ({ id := "tbl1", name := "T1", fields := [] } : TableSchema).name = "T1") :=
  (schemaLookup_characterization envC7 "T1").1 { id := "tbl1", name := "T1", fields := [] } rfl

/-- C8: every record operation wraps a remote failure into a single
operation-specific error whose message contains the original message, with
exactly one remote call and no retry; the schema fetch failure of the
search pipeline is wrapped the same way, and a delete of a nonexistent
record surfaces the wrapped remote message. -/
theorem remoteFailureWrap (m : String) (s : Nat) (tables : List TableSchema)
    (recs : List AirtableRecord) (X T : String) (fids : Option (List String)) (mr : Nat) :
    ((listRecordsOp (Except.error m)).result = Except.error ("Failed to list records: " ++ m) ∧
      jsIncludes ("Failed to list records: " ++ m) m = true ∧
      (listRecordsOp (Except.error m)).remoteCalls = 1) ∧
    ((getRecordOp (Except.error m)).result = Except.error ("Failed to get record: " ++ m) ∧
      jsIncludes ("Failed to get record: " ++ m) m = true ∧
      (getRecordOp (Except.error m)).remoteCalls = 1) ∧
    ((createRecordOp (Except.error m)).result = Except.error ("Failed to create record: " ++ m) ∧
      jsIncludes ("Failed to create record: " ++ m) m = true ∧
      (createRecordOp (Except.error m)).remoteCalls = 1) ∧
    ((updateRecordOp (Except.error m)).result = Except.error ("Failed to update record: " ++ m) ∧
      jsIncludes ("Failed to update record: " ++ m) m = true ∧
      (updateRecordOp (Except.error m)).remoteCalls = 1) ∧
    ((deleteRecordOp (Except.error m)).result = Except.error ("Failed to delete record: " ++ m) ∧
      jsIncludes ("Failed to delete record: " ++ m) m = true ∧
      (deleteRecordOp (Except.error m)).remoteCalls = 1) ∧
    ((searchRecordsRun ⟨false, s, tables, recs⟩ X T fids mr).1 =
        Except.error ("Failed to search records: Error: Schema API responded with status "
          ++ toString s) ∧
      jsIncludes ("Failed to search records: Error: Schema API responded with status "
          ++ toString s) ("Schema API responded with status " ++ toString s) = true) ∧
    (deleteRecordOp (Except.error "Error: NOT_FOUND: Record not found")).result =
      Except.error "Failed to delete record: Error: NOT_FOUND: Record not found" := by
  have hsplit : ("Failed to search records: Error: Schema API responded with status "
        ++ toString s)
      = "Failed to search records: Error: "
        ++ ("Schema API responded with status " ++ toString s) := by
    rw [← String.append_assoc]
    rfl
  refine ⟨⟨rfl, jsIncludes_append_right _ m, rfl⟩,
    ⟨rfl, jsIncludes_append_right _ m, rfl⟩,
    ⟨rfl, jsIncludes_append_right _ m, rfl⟩,
    ⟨rfl, jsIncludes_append_right _ m, rfl⟩,
    ⟨rfl, jsIncludes_append_right _ m, rfl⟩,
    ⟨rfl, ?_⟩, rfl⟩
  rw [hsplit]
  exact jsIncludes_append_right _ _

/-- C9: a successful client-side search returns exactly the filter of the
fetched record page by the match evaluator: a sublist of the page in fetch
order, whose members are exactly the fetched records the evaluator
accepts. -/
theorem searchFilter_orderPreserving (env : SearchEnv) (X T : String)
    (fids : Option (List String)) (mr : Nat) (out : List AirtableRecord)
    (h : (searchRecordsRun env X T fids mr).1 = Except.ok out) :
    ∃ table names,
      schemaLookup env X = Except.ok table ∧
      resolveSearchFields table.fields fids = Except.ok names ∧
      out = (env.records.take mr).filter (fun r => recordMatches r names T) ∧
      out.Sublist (env.records.take mr) ∧
      (∀ r, r ∈ out ↔ r ∈ env.records.take mr ∧ recordMatches r names T = true) := by
  unfold searchRecordsRun at h
  rcases hs : schemaLookup env X with e | table
  · rw [hs] at h
    rcases e with s | _
    · simp at h
    · simp at h
  · rw [hs] at h
    rcases hr : resolveSearchFields table.fields fids with e | names
    · simp only [hr] at h
      simp at h
    · simp only [hr] at h
      simp only [Except.ok.injEq] at h
      refine ⟨table, names, rfl, hr, h.symm, ?_, ?_⟩
      · rw [← h]
        exact List.filter_sublist _
      · intro r
        rw [← h]
        simp [List.mem_filter]

/-- Witness for C9: the two-record `Widget A` / `Gadget` page searched for
`red` over type-inferred fields returns exactly the first record. -/
theorem searchFilter_witness :
    ∃ table names,
      schemaLookup envW "T1" = Except.ok table ∧
      resolveSearchFields table.fields none = Except.ok names ∧
      [recW] = (envW.records.take 100).filter (fun r => recordMatches r names "red") ∧
      List.Sublist [recW] (envW.records.take 100) ∧
      (∀ r, r ∈ [recW] ↔ r ∈ envW.records.take 100 ∧ recordMatches r names "red" = true) :=
  searchFilter_orderPreserving envW "T1" "red" none 100 [recW] rfl

end AirtableMCP
